import Mathlib

/-!
Shallow embedding of `src/main.go` of gotokatsuya/shopify-shipping-csv.

The program is a single-pass ETL pipeline: Shopify order rows are chunked
into batches of at most 40, each order is mapped to a Clickpost shipping
label, labels are validated (required fields, glyph-length limits counted
in runes), invalid labels are skipped with a log line, and the valid ones
are written out.  File and CSV I/O are abstracted away; the pure data flow
(chunking, transformation, validation, per-record skip/log loop) is
embedded faithfully below.  Go strings counted with
`utf8.RuneCountInString` become Lean `String.length` (both count Unicode
scalar values).
-/

/-- Embeds the Go struct `ShopifyOrder` (src/main.go lines 80-89). -/
structure ShopifyOrder where
  Name : String
  ShippingName : String
  ShippingStreet : String
  ShippingAddress1 : String
  ShippingAddress2 : String
  ShippingCity : String
  ShippingZip : String
  ShippingProvince : String
deriving Repr, DecidableEq

/-- Embeds the Go struct `ClickpostShippingLabel` (src/main.go lines 103-112). -/
structure ClickpostShippingLabel where
  ShippingZip : String
  ShippingName : String
  ShippingNameTitle : String
  ShippingAddress1 : String
  ShippingAddress2 : String
  ShippingAddress3 : String
  ShippingAddress4 : String
  ShippingContents : String
deriving Repr, DecidableEq

/-- Embeds `func (s ShopifyOrder) ToClickpostShippingLabel()`
(src/main.go lines 91-101).  Note that in the Go struct literal
`s.ShippingAddress1` is the SOURCE order's own `ShippingAddress1` field
(a composite literal cannot refer to the destination field being built),
so the destination address line 2 is street + source address line 1. -/
def ShopifyOrder.ToClickpostShippingLabel (s : ShopifyOrder) : ClickpostShippingLabel :=
  { ShippingZip := s.ShippingZip
    ShippingName := s.ShippingName
    ShippingNameTitle := "様"
    ShippingAddress1 := s.ShippingProvince ++ s.ShippingCity
    ShippingAddress2 := s.ShippingStreet ++ s.ShippingAddress1
    ShippingAddress3 := s.ShippingAddress2
    ShippingAddress4 := ""
    ShippingContents := "サプリメント" }

/-- Embeds `func (c ClickpostShippingLabel) Validate() error`
(src/main.go lines 115-147).  A Go `nil` return is `.ok ()`, a non-nil
`error` is `.error msg`.  `String.length` counts runes exactly as
`utf8.RuneCountInString` does. -/
def ClickpostShippingLabel.Validate (c : ClickpostShippingLabel) : Except String Unit :=
  if c.ShippingZip = "" then .error "お届け先郵便番号は必須です"
  else if c.ShippingName = "" then .error "お届け先氏名は必須です"
  else if c.ShippingName.length > 20 then .error "お届け先氏名は全角20文字までです"
  else if c.ShippingAddress1 = "" then .error "お届け先住所1行目は必須です"
  else if c.ShippingAddress1.length > 20 then .error "お届け先住所1行目は全角20文字までです"
  else if c.ShippingAddress2 = "" then .error "お届け先住所2行目は必須です"
  else if c.ShippingAddress2.length > 20 then .error "お届け先住所2行目は全角20文字までです"
  else if c.ShippingAddress3.length > 20 then .error "お届け先住所3行目は全角20文字までです"
  else if c.ShippingAddress4.length > 20 then .error "お届け先住所4行目は全角20文字までです"
  else if c.ShippingContents.length > 15 then .error "内容品は全角15文字までです"
  else .ok ()

/-- The ten `Validate` checks as an ordered list of (fails?, message) pairs,
in the exact source order of src/main.go lines 116-145.  Used to state that
`Validate` returns the message of the first failing check. -/
def validationChecks (c : ClickpostShippingLabel) : List (Bool × String) :=
  [ (c.ShippingZip = "", "お届け先郵便番号は必須です")
  , (c.ShippingName = "", "お届け先氏名は必須です")
  , (c.ShippingName.length > 20, "お届け先氏名は全角20文字までです")
  , (c.ShippingAddress1 = "", "お届け先住所1行目は必須です")
  , (c.ShippingAddress1.length > 20, "お届け先住所1行目は全角20文字までです")
  , (c.ShippingAddress2 = "", "お届け先住所2行目は必須です")
  , (c.ShippingAddress2.length > 20, "お届け先住所2行目は全角20文字までです")
  , (c.ShippingAddress3.length > 20, "お届け先住所3行目は全角20文字までです")
  , (c.ShippingAddress4.length > 20, "お届け先住所4行目は全角20文字までです")
  , (c.ShippingContents.length > 15, "内容品は全角15文字までです") ]

/-- The message of the first failing check, if any. -/
def firstFailingCheck (c : ClickpostShippingLabel) : Option String :=
  ((validationChecks c).find? (fun p => p.1)).map (fun p => p.2)

/-- One iteration step count ("fuel") semantics for the Go loop in
`ChunkShopifyOrders` (src/main.go lines 46-51):

    for chunkSize < len(items) {
      items, chunks = items[chunkSize:], append(chunks, items[0:chunkSize:chunkSize])
    }
    return append(chunks, items)

`chunkAux fuel chunkSize items` runs the loop for at most `fuel`
iterations; `none` means the loop did not finish within `fuel` iterations
(for `chunkSize = 0` and non-empty input it never does). -/
def chunkAux (fuel chunkSize : Nat) (items : List ShopifyOrder) :
    Option (List (List ShopifyOrder)) :=
  if chunkSize < items.length then
    match fuel with
    | 0 => none
    | fuel + 1 =>
      (chunkAux fuel chunkSize (items.drop chunkSize)).map
        (fun cs => items.take chunkSize :: cs)
  else some [items]

/-- Embeds `func ChunkShopifyOrders` (src/main.go lines 46-51).  The loop
needs fewer than `items.length + 1` iterations whenever `chunkSize ≥ 1`,
so `items.length` fuel is always enough; `none` models divergence of the
Go loop (which happens exactly when `chunkSize = 0` and the input is
non-empty). -/
def ChunkShopifyOrders (items : List ShopifyOrder) (chunkSize : Nat) :
    Option (List (List ShopifyOrder)) :=
  chunkAux items.length chunkSize items

/-- The pure content of the per-record loop of
`ExportClickpostShippingLabels` (src/main.go lines 55-63): each order is
transformed; a label failing validation is skipped and a log line
`注文番号:<Name> エラー:<err>` is recorded; a valid label is appended.
Returns (labels handed to the CSV writer, log lines in order). -/
def ExportClickpostShippingLabels :
    List ShopifyOrder → List ClickpostShippingLabel × List String
  | [] => ([], [])
  | o :: os =>
    let label := o.ToClickpostShippingLabel
    let rest := ExportClickpostShippingLabels os
    match label.Validate with
    | .error e => (rest.1, ("注文番号:" ++ o.Name ++ " エラー:" ++ e) :: rest.2)
    | .ok _ => (label :: rest.1, rest.2)

/-- Whether a label passes validation, as a Bool. -/
def validateOk (c : ClickpostShippingLabel) : Bool :=
  match c.Validate with
  | .ok _ => true
  | .error _ => false

/-- The chunking recursion written directly (no fuel), defined for every
chunk size but agreeing with the Go loop only when `0 < chunkSize`
(for `chunkSize = 0` the Go loop diverges while this returns `[items]`).
Used as the closed form of `chunkAux` with sufficient fuel. -/
def chunkList (chunkSize : Nat) (items : List ShopifyOrder) : List (List ShopifyOrder) :=
  if _h : 0 < chunkSize ∧ chunkSize < items.length then
    items.take chunkSize :: chunkList chunkSize (items.drop chunkSize)
  else [items]
termination_by items.length
decreasing_by simp only [List.length_drop]; omega

theorem chunkList_eq_cons (n : Nat) (items : List ShopifyOrder)
    (h : 0 < n ∧ n < items.length) :
    chunkList n items = items.take n :: chunkList n (items.drop n) := by
  rw [chunkList]
  exact dif_pos h

theorem chunkList_eq_single (n : Nat) (items : List ShopifyOrder)
    (h : ¬(0 < n ∧ n < items.length)) : chunkList n items = [items] := by
  rw [chunkList]
  exact dif_neg h

theorem chunkAux_eq_chunkList (fuel n : Nat) (hn : 0 < n) :
    ∀ items : List ShopifyOrder, items.length ≤ fuel →
      chunkAux fuel n items = some (chunkList n items) := by
  induction fuel with
  | zero =>
    intro items hle
    have hnot : ¬ n < items.length := by omega
    rw [chunkAux, if_neg hnot, chunkList_eq_single n items (by omega)]
  | succ fuel ih =>
    intro items hle
    by_cases h : n < items.length
    · rw [chunkAux, if_pos h,
        ih (items.drop n) (by simp only [List.length_drop]; omega),
        chunkList_eq_cons n items ⟨hn, h⟩]
      rfl
    · rw [chunkAux, if_neg h, chunkList_eq_single n items (by omega)]

theorem chunkList_join (n : Nat) (items : List ShopifyOrder) :
    (chunkList n items).flatten = items := by
  induction items using chunkList.induct n with
  | case1 items h ih =>
    rw [chunkList_eq_cons n items h, List.flatten_cons, ih, List.take_append_drop]
  | case2 items h =>
    rw [chunkList_eq_single n items h]
    simp

theorem chunkList_ne_nil (n : Nat) (items : List ShopifyOrder) :
    chunkList n items ≠ [] := by
  rw [chunkList]
  split <;> simp

theorem chunkList_length (n : Nat) (items : List ShopifyOrder) :
    0 < n → 0 < items.length →
      (chunkList n items).length = (items.length + n - 1) / n := by
  induction items using chunkList.induct n with
  | case1 items h ih =>
    intro hn hL
    rw [chunkList_eq_cons n items h, List.length_cons,
      ih hn (by simp only [List.length_drop]; omega)]
    simp only [List.length_drop]
    have h1 : items.length - n + n - 1 = items.length - 1 := by omega
    have h2 : items.length + n - 1 = (items.length - 1) + n := by omega
    rw [h1, h2, Nat.add_div_right _ hn]
  | case2 items h =>
    intro hn hL
    rw [chunkList_eq_single n items h, List.length_singleton]
    have hle : items.length ≤ n := by omega
    symm
    apply Nat.div_eq_of_lt_le
    · omega
    · simpa [Nat.succ_mul] using by omega

theorem chunkList_dropLast (n : Nat) (items : List ShopifyOrder) :
    ∀ c ∈ (chunkList n items).dropLast, c.length = n := by
  induction items using chunkList.induct n with
  | case1 items h ih =>
    intro c hc
    rw [chunkList_eq_cons n items h,
      List.dropLast_cons_of_ne_nil (chunkList_ne_nil n (items.drop n))] at hc
    rcases List.mem_cons.mp hc with rfl | hc
    · rw [List.length_take]
      omega
    · exact ih c hc
  | case2 items h =>
    intro c hc
    rw [chunkList_eq_single n items h] at hc
    simp at hc

theorem chunkList_mem_le (n : Nat) (items : List ShopifyOrder) :
    0 < n → ∀ c ∈ chunkList n items, c.length ≤ n := by
  induction items using chunkList.induct n with
  | case1 items h ih =>
    intro hn c hc
    rw [chunkList_eq_cons n items h] at hc
    rcases List.mem_cons.mp hc with rfl | hc
    · rw [List.length_take]
      omega
    · exact ih hn c hc
  | case2 items h =>
    intro hn c hc
    rw [chunkList_eq_single n items h] at hc
    rw [List.mem_singleton.mp hc]
    omega

theorem chunkList_mem_ne_nil (n : Nat) (items : List ShopifyOrder) :
    0 < n → items ≠ [] → ∀ c ∈ chunkList n items, c ≠ [] := by
  induction items using chunkList.induct n with
  | case1 items h ih =>
    intro hn hne c hc
    rw [chunkList_eq_cons n items h] at hc
    rcases List.mem_cons.mp hc with rfl | hc
    · intro hcon
      have := congrArg List.length hcon
      simp only [List.length_take, List.length_nil] at this
      omega
    · refine ih hn ?_ c hc
      intro hcon
      have := congrArg List.length hcon
      simp only [List.length_drop, List.length_nil] at this
      omega
  | case2 items h =>
    intro hn hne c hc
    rw [chunkList_eq_single n items h] at hc
    rw [List.mem_singleton.mp hc]
    exact hne

/-- Short-circuit evaluation of an ordered list of (fails?, message)
checks: the result is the message of the first failing check, `.ok ()`
when none fails.  `Validate` is proved equal to this applied to
`validationChecks`. -/
def validateFromChecks : List (Bool × String) → Except String Unit
  | [] => .ok ()
  | (b, m) :: rest => if b then .error m else validateFromChecks rest

theorem validateFromChecks_eq (checks : List (Bool × String)) :
    validateFromChecks checks =
      match (checks.find? (fun p => p.1)).map (fun p => p.2) with
      | some m => .error m
      | none => .ok () := by
  induction checks with
  | nil => rfl
  | cons p rest ih =>
    obtain ⟨b, m⟩ := p
    cases b <;> simp [validateFromChecks, List.find?, ih]

theorem validate_eq (c : ClickpostShippingLabel) :
    c.Validate = validateFromChecks (validationChecks c) := by
  unfold ClickpostShippingLabel.Validate validationChecks
  simp only [validateFromChecks, decide_eq_true_eq]

theorem validate_eq_firstFailing (c : ClickpostShippingLabel) :
    c.Validate = match firstFailingCheck c with
      | some m => .error m
      | none => .ok () := by
  rw [validate_eq, validateFromChecks_eq]
  rfl

theorem validate_error_iff (c : ClickpostShippingLabel) (m : String) :
    c.Validate = .error m ↔ firstFailingCheck c = some m := by
  rw [validate_eq_firstFailing]
  cases h : firstFailingCheck c <;> simp

theorem firstFailing_none_iff (c : ClickpostShippingLabel) :
    firstFailingCheck c = none ↔
      (c.ShippingZip ≠ "" ∧ c.ShippingName ≠ "" ∧ c.ShippingName.length ≤ 20 ∧
       c.ShippingAddress1 ≠ "" ∧ c.ShippingAddress1.length ≤ 20 ∧
       c.ShippingAddress2 ≠ "" ∧ c.ShippingAddress2.length ≤ 20 ∧
       c.ShippingAddress3.length ≤ 20 ∧ c.ShippingAddress4.length ≤ 20 ∧
       c.ShippingContents.length ≤ 15) := by
  unfold firstFailingCheck validationChecks
  simp [List.find?_eq_none, Nat.not_lt]

theorem validate_ok_iff (c : ClickpostShippingLabel) :
    c.Validate = .ok () ↔
      (c.ShippingZip ≠ "" ∧ c.ShippingName ≠ "" ∧ c.ShippingName.length ≤ 20 ∧
       c.ShippingAddress1 ≠ "" ∧ c.ShippingAddress1.length ≤ 20 ∧
       c.ShippingAddress2 ≠ "" ∧ c.ShippingAddress2.length ≤ 20 ∧
       c.ShippingAddress3.length ≤ 20 ∧ c.ShippingAddress4.length ≤ 20 ∧
       c.ShippingContents.length ≤ 15) := by
  rw [validate_eq_firstFailing, ← firstFailing_none_iff]
  cases h : firstFailingCheck c <;> simp

theorem validate_not_ok_iff (c : ClickpostShippingLabel) :
    (∃ e, c.Validate = .error e) ↔ c.Validate ≠ .ok () := by
  cases h : c.Validate with
  | ok u => cases u; simp [h]
  | error e => simp [h]

theorem export_filter (orders : List ShopifyOrder) :
    (ExportClickpostShippingLabels orders).1
        = (orders.filter (fun o => validateOk o.ToClickpostShippingLabel)).map
            ShopifyOrder.ToClickpostShippingLabel ∧
    (ExportClickpostShippingLabels orders).2
        = orders.filterMap (fun o =>
            match o.ToClickpostShippingLabel.Validate with
            | .error e => some ("注文番号:" ++ o.Name ++ " エラー:" ++ e)
            | .ok _ => none) := by
  induction orders with
  | nil => exact ⟨rfl, rfl⟩
  | cons o os ih =>
    obtain ⟨ih1, ih2⟩ := ih
    simp only [ExportClickpostShippingLabels, List.filter_cons, List.filterMap_cons]
    cases h : o.ToClickpostShippingLabel.Validate with
    | ok u =>
      cases u
      simp [h, ih1, ih2, validateOk]
    | error e =>
      simp [h, ih1, ih2, validateOk]

/-- An order with every field empty. -/
def emptyOrder : ShopifyOrder :=
  { Name := "", ShippingName := "", ShippingStreet := "", ShippingAddress1 := "",
    ShippingAddress2 := "", ShippingCity := "", ShippingZip := "", ShippingProvince := "" }

/-- The round-trip scenario order of the spec: address line 2 empty,
province "X", city "Y", street "Z" (its address line 1 is also empty). -/
def exampleOrder : ShopifyOrder :=
  { Name := "#1001", ShippingName := "", ShippingStreet := "Z", ShippingAddress1 := "",
    ShippingAddress2 := "", ShippingCity := "Y", ShippingZip := "", ShippingProvince := "X" }

/-- Like `exampleOrder` but with a non-empty source address line 1. -/
def cexOrder : ShopifyOrder :=
  { Name := "#1001", ShippingName := "", ShippingStreet := "Z", ShippingAddress1 := "A",
    ShippingAddress2 := "", ShippingCity := "Y", ShippingZip := "", ShippingProvince := "X" }

/-- An order whose transformed label passes every validation check. -/
def goodOrder : ShopifyOrder :=
  { Name := "#1002", ShippingName := "山田太郎", ShippingStreet := "渋谷1-2-3",
    ShippingAddress1 := "", ShippingAddress2 := "", ShippingCity := "渋谷区",
    ShippingZip := "150-0002", ShippingProvince := "東京都" }

/-- An order whose transformed label fails validation (empty recipient name). -/
def badOrder : ShopifyOrder :=
  { Name := "#1003", ShippingName := "", ShippingStreet := "渋谷1-2-3",
    ShippingAddress1 := "", ShippingAddress2 := "", ShippingCity := "渋谷区",
    ShippingZip := "150-0002", ShippingProvince := "東京都" }

/-- A label satisfying every check, with a 20-glyph multi-byte recipient name. -/
def label20 : ClickpostShippingLabel :=
  { ShippingZip := "150-0002", ShippingName := "あいうえおかきくけこさしすせそたちつてと",
    ShippingNameTitle := "様", ShippingAddress1 := "東京都渋谷区",
    ShippingAddress2 := "渋谷1-2-3", ShippingAddress3 := "", ShippingAddress4 := "",
    ShippingContents := "サプリメント" }

/-- `label20` with a 21-glyph recipient name. -/
def label21 : ClickpostShippingLabel :=
  { label20 with ShippingName := "あいうえおかきくけこさしすせそたちつてとな" }

/-- `label20` with an empty recipient name. -/
def labelNoName : ClickpostShippingLabel :=
  { label20 with ShippingName := "" }

/-- `label20` with an empty address line 2. -/
def labelNoA2 : ClickpostShippingLabel :=
  { label20 with ShippingAddress2 := "" }

/-- C1 (counterexample): the transformer does NOT set destination address
line 2 to street + computed destination line 1 (= street + region + city).
For `cexOrder` (street "Z", source address line 1 "A", province "X", city
"Y") the destination gets line 1 "XY" but line 2 "ZA", which differs from
"Z" ++ "XY" and does not have line 1 as a suffix; for the spec's round-trip
order (`exampleOrder`, source address line 1 empty) line 2 is "Z", not the
claimed "ZXY". -/
theorem transformer_address2_cex :
    cexOrder.ToClickpostShippingLabel.ShippingAddress1 = "XY" ∧
    cexOrder.ToClickpostShippingLabel.ShippingAddress2 = "ZA" ∧
    cexOrder.ToClickpostShippingLabel.ShippingAddress2 ≠
      cexOrder.ShippingStreet ++ cexOrder.ToClickpostShippingLabel.ShippingAddress1 ∧
    ¬ (cexOrder.ToClickpostShippingLabel.ShippingAddress1.data <:+
        cexOrder.ToClickpostShippingLabel.ShippingAddress2.data) ∧
    exampleOrder.ToClickpostShippingLabel.ShippingAddress1 = "XY" ∧
    exampleOrder.ToClickpostShippingLabel.ShippingAddress2 = "Z" ∧
    exampleOrder.ToClickpostShippingLabel.ShippingAddress2 ≠ "ZXY" := by
  decide

/-- C1 (amended): the transformer sets destination address line 2 to the
source street name concatenated with the SOURCE order's own address line 1
field (no separator), while destination address line 1 is region + city;
the round-trip order (address lines 1 and 2 empty, province "X", city "Y",
street "Z") yields destination line 1 = "XY", line 2 = "Z", line 3 = "". -/
theorem transformer_address2_amended (s : ShopifyOrder) :
    s.ToClickpostShippingLabel.ShippingAddress2
        = s.ShippingStreet ++ s.ShippingAddress1 ∧
    s.ToClickpostShippingLabel.ShippingAddress1
        = s.ShippingProvince ++ s.ShippingCity ∧
    exampleOrder.ToClickpostShippingLabel.ShippingAddress1 = "XY" ∧
    exampleOrder.ToClickpostShippingLabel.ShippingAddress2 = "Z" ∧
    exampleOrder.ToClickpostShippingLabel.ShippingAddress3 = "" :=
  ⟨rfl, rfl, rfl, rfl, rfl⟩

/-- C8: the transformer maps destination address line 1 to region ++ city
(region first, no separator), address line 3 to the source address line 2
verbatim, address line 4 to the empty string, and postal code and
recipient name verbatim from the source. -/
theorem transformer_field_mapping (s : ShopifyOrder) :
    s.ToClickpostShippingLabel.ShippingAddress1
        = s.ShippingProvince ++ s.ShippingCity ∧
    s.ToClickpostShippingLabel.ShippingAddress3 = s.ShippingAddress2 ∧
    s.ToClickpostShippingLabel.ShippingAddress4 = "" ∧
    s.ToClickpostShippingLabel.ShippingZip = s.ShippingZip ∧
    s.ToClickpostShippingLabel.ShippingName = s.ShippingName :=
  ⟨rfl, rfl, rfl, rfl, rfl⟩

/-- C3: `Validate` succeeds iff all ten constraints hold (postal code
non-empty; name non-empty and ≤ 20 glyphs; address line 1 non-empty and
≤ 20; address line 2 non-empty and ≤ 20; address lines 3 and 4 ≤ 20;
contents ≤ 15), and on failure it returns the message of the first failing
check in the source's fixed order (`firstFailingCheck`). -/
theorem validate_contract (c : ClickpostShippingLabel) :
    (c.Validate = .ok () ↔
      (c.ShippingZip ≠ "" ∧ c.ShippingName ≠ "" ∧ c.ShippingName.length ≤ 20 ∧
       c.ShippingAddress1 ≠ "" ∧ c.ShippingAddress1.length ≤ 20 ∧
       c.ShippingAddress2 ≠ "" ∧ c.ShippingAddress2.length ≤ 20 ∧
       c.ShippingAddress3.length ≤ 20 ∧ c.ShippingAddress4.length ≤ 20 ∧
       c.ShippingContents.length ≤ 15)) ∧
    (∀ m, c.Validate = .error m ↔ firstFailingCheck c = some m) :=
  ⟨validate_ok_iff c, fun m => validate_error_iff c m⟩

theorem validate_contract_witness :
    label20.Validate = .ok () ∧
    firstFailingCheck labelNoName = some "お届け先氏名は必須です" :=
  ⟨(validate_contract label20).1.mpr
      ⟨by decide, by decide, by decide, by decide, by decide,
       by decide, by decide, by decide, by decide, by decide⟩,
   ((validate_contract labelNoName).2 "お届け先氏名は必須です").mp rfl⟩

/-- C5: for a label whose other fields satisfy their constraints,
`Validate` rejects a recipient name of 21 or more glyphs (with the
name-too-long error) and accepts a recipient name of exactly 20 glyphs,
counting each character once independently of its UTF-8 byte width. -/
theorem validate_name_glyphs (c : ClickpostShippingLabel)
    (hzip : c.ShippingZip ≠ "")
    (ha1 : c.ShippingAddress1 ≠ "") (ha1l : c.ShippingAddress1.length ≤ 20)
    (ha2 : c.ShippingAddress2 ≠ "") (ha2l : c.ShippingAddress2.length ≤ 20)
    (ha3l : c.ShippingAddress3.length ≤ 20) (ha4l : c.ShippingAddress4.length ≤ 20)
    (hct : c.ShippingContents.length ≤ 15) :
    (21 ≤ c.ShippingName.length →
        c.Validate = .error "お届け先氏名は全角20文字までです") ∧
    (c.ShippingName.length = 20 → c.Validate = .ok ()) := by
  constructor
  · intro h
    have hne : c.ShippingName ≠ "" := by
      intro he
      rw [he] at h
      simp at h
    unfold ClickpostShippingLabel.Validate
    rw [if_neg hzip, if_neg hne, if_pos (by omega)]
  · intro h
    rw [validate_ok_iff]
    refine ⟨hzip, ?_, by omega, ha1, ha1l, ha2, ha2l, ha3l, ha4l, hct⟩
    intro he
    rw [he] at h
    simp at h

theorem validate_name_glyphs_witness :
    label20.ShippingName.length = 20 ∧ label20.Validate = .ok () ∧
    21 ≤ label21.ShippingName.length ∧
    label21.Validate = .error "お届け先氏名は全角20文字までです" :=
  ⟨by decide,
   (validate_name_glyphs label20 (by decide) (by decide) (by decide) (by decide)
      (by decide) (by decide) (by decide) (by decide)).2 (by decide),
   by decide,
   (validate_name_glyphs label21 (by decide) (by decide) (by decide) (by decide)
      (by decide) (by decide) (by decide) (by decide)).1 (by decide)⟩

/-- C6: an empty recipient name always makes `Validate` fail (whatever the
other fields), an empty address line 2 always makes it fail, and emptiness
of address lines 3 and 4 alone never causes rejection: a label meeting all
other constraints with address lines 3 and 4 empty is accepted. -/
theorem validate_required (c : ClickpostShippingLabel) :
    (c.ShippingName = "" → ∃ e, c.Validate = .error e) ∧
    (c.ShippingAddress2 = "" → ∃ e, c.Validate = .error e) ∧
    ((c.ShippingZip ≠ "" ∧ c.ShippingName ≠ "" ∧ c.ShippingName.length ≤ 20 ∧
      c.ShippingAddress1 ≠ "" ∧ c.ShippingAddress1.length ≤ 20 ∧
      c.ShippingAddress2 ≠ "" ∧ c.ShippingAddress2.length ≤ 20 ∧
      c.ShippingAddress3 = "" ∧ c.ShippingAddress4 = "" ∧
      c.ShippingContents.length ≤ 15) → c.Validate = .ok ()) := by
  refine ⟨?_, ?_, ?_⟩
  · intro h
    rw [validate_not_ok_iff]
    intro hok
    exact ((validate_ok_iff c).mp hok).2.1 h
  · intro h
    rw [validate_not_ok_iff]
    intro hok
    exact ((validate_ok_iff c).mp hok).2.2.2.2.2.1 h
  · intro hc
    obtain ⟨h1, h2, h3, h4, h5, h6, h7, h8, h9, h10⟩ := hc
    rw [validate_ok_iff]
    exact ⟨h1, h2, h3, h4, h5, h6, h7, by rw [h8]; decide, by rw [h9]; decide, h10⟩

theorem validate_required_witness :
    (∃ e, labelNoName.Validate = .error e) ∧
    (∃ e, labelNoA2.Validate = .error e) ∧
    label20.Validate = .ok () :=
  ⟨(validate_required labelNoName).1 rfl,
   (validate_required labelNoA2).2.1 rfl,
   (validate_required label20).2.2
      ⟨by decide, by decide, by decide, by decide, by decide,
       by decide, by decide, rfl, rfl, by decide⟩⟩

/-- C2: for chunk size N ≥ 1 and non-empty input of length L,
`ChunkShopifyOrders` terminates and returns exactly ⌈L/N⌉ chunks whose
concatenation is the input (hence contiguous slices in original order),
every chunk before the last of length exactly N, and every chunk of
length ≤ N and non-empty (so the last holds the non-empty remainder). -/
theorem chunk_shape (items : List ShopifyOrder) (n : Nat)
    (hn : 1 ≤ n) (hL : 0 < items.length) :
    ∃ cs, ChunkShopifyOrders items n = some cs ∧
      cs.length = (items.length + n - 1) / n ∧
      cs.flatten = items ∧
      (∀ c ∈ cs.dropLast, c.length = n) ∧
      (∀ c ∈ cs, c.length ≤ n ∧ c ≠ []) := by
  refine ⟨chunkList n items, chunkAux_eq_chunkList items.length n hn items le_rfl,
    chunkList_length n items hn hL, chunkList_join n items, chunkList_dropLast n items, ?_⟩
  intro c hc
  exact ⟨chunkList_mem_le n items hn c hc,
    chunkList_mem_ne_nil n items hn (List.length_pos.mp hL) c hc⟩

theorem chunk_shape_witness :
    ∃ cs, ChunkShopifyOrders (List.replicate 5 emptyOrder) 2 = some cs ∧
      cs.length = ((List.replicate 5 emptyOrder).length + 2 - 1) / 2 ∧
      cs.flatten = List.replicate 5 emptyOrder ∧
      (∀ c ∈ cs.dropLast, c.length = 2) ∧
      (∀ c ∈ cs, c.length ≤ 2 ∧ c ≠ []) :=
  chunk_shape (List.replicate 5 emptyOrder) 2 (by decide) (by decide)

/-- C7: for every chunk size N ≥ 1, chunking the empty input returns
exactly one chunk, and that chunk is empty (the trailing remainder chunk
is appended on every call). -/
theorem chunk_empty_input (n : Nat) (_hn : 1 ≤ n) :
    ChunkShopifyOrders [] n = some [[]] := by
  simp [ChunkShopifyOrders, chunkAux]

theorem chunk_empty_input_witness : ChunkShopifyOrders [] 40 = some [[]] :=
  chunk_empty_input 40 (by decide)

/-- C10: the chunking loop terminates for every input when the chunk size
is at least 1 (each iteration drops N ≥ 1 elements, so `items.length` fuel
suffices and the result is `some`), and the positivity precondition is
essential: with chunk size 0 and a non-empty input no amount of fuel makes
the loop finish (`chunkAux` is `none` for every fuel). -/
theorem chunk_loop_termination :
    (∀ (items : List ShopifyOrder) (n : Nat), 1 ≤ n →
        (ChunkShopifyOrders items n).isSome = true) ∧
    (∀ items : List ShopifyOrder, items ≠ [] →
        ∀ fuel, chunkAux fuel 0 items = none) := by
  constructor
  · intro items n hn
    unfold ChunkShopifyOrders
    rw [chunkAux_eq_chunkList items.length n hn items le_rfl]
    rfl
  · intro items hne fuel
    induction fuel with
    | zero =>
      rw [chunkAux, if_pos (List.length_pos.mpr hne)]
    | succ fuel ih =>
      rw [chunkAux, if_pos (List.length_pos.mpr hne)]
      show (chunkAux fuel 0 (items.drop 0)).map (fun cs => items.take 0 :: cs) = none
      rw [List.drop_zero, ih]
      rfl

theorem chunk_loop_termination_witness :
    (ChunkShopifyOrders (List.replicate 3 emptyOrder) 2).isSome = true ∧
    chunkAux 5 0 (List.replicate 3 emptyOrder) = none :=
  ⟨chunk_loop_termination.1 (List.replicate 3 emptyOrder) 2 (by decide),
   chunk_loop_termination.2 (List.replicate 3 emptyOrder) (by decide) 5⟩

/-- C4: in the export loop, the labels written are exactly the transforms
of the orders whose labels validate (in order), the log lines are exactly
one diagnostic per failing order carrying its order identifier and the
validation error, every order whose label validates appears in the output
even when other orders in the batch fail, and a validation failure never
aborts the loop. -/
theorem export_skips_and_continues (orders : List ShopifyOrder) :
    (ExportClickpostShippingLabels orders).1
        = (orders.filter (fun o => validateOk o.ToClickpostShippingLabel)).map
            ShopifyOrder.ToClickpostShippingLabel ∧
    (ExportClickpostShippingLabels orders).2
        = orders.filterMap (fun o =>
            match o.ToClickpostShippingLabel.Validate with
            | .error e => some ("注文番号:" ++ o.Name ++ " エラー:" ++ e)
            | .ok _ => none) ∧
    (∀ o ∈ orders, o.ToClickpostShippingLabel.Validate = .ok () →
        o.ToClickpostShippingLabel ∈ (ExportClickpostShippingLabels orders).1) ∧
    (∀ o ∈ orders, ∀ e, o.ToClickpostShippingLabel.Validate = .error e →
        ("注文番号:" ++ o.Name ++ " エラー:" ++ e) ∈ (ExportClickpostShippingLabels orders).2) := by
  obtain ⟨h1, h2⟩ := export_filter orders
  refine ⟨h1, h2, ?_, ?_⟩
  · intro o ho hok
    rw [h1]
    exact List.mem_map_of_mem _ (List.mem_filter.mpr ⟨ho, by simp [validateOk, hok]⟩)
  · intro o ho e he
    rw [h2]
    exact List.mem_filterMap.mpr ⟨o, ho, by simp [he]⟩

theorem export_skips_and_continues_witness :
    goodOrder.ToClickpostShippingLabel
        ∈ (ExportClickpostShippingLabels [badOrder, goodOrder]).1 ∧
    ("注文番号:" ++ badOrder.Name ++ " エラー:" ++ "お届け先氏名は必須です")
        ∈ (ExportClickpostShippingLabels [badOrder, goodOrder]).2 :=
  ⟨(export_skips_and_continues [badOrder, goodOrder]).2.2.1 goodOrder (by decide) rfl,
   (export_skips_and_continues [badOrder, goodOrder]).2.2.2 badOrder (by decide)
      "お届け先氏名は必須です" rfl⟩

theorem validate_transformed_mem (s : ShopifyOrder) :
    ∀ e, s.ToClickpostShippingLabel.Validate = .error e →
      e ∈ ["お届け先郵便番号は必須です", "お届け先氏名は必須です",
           "お届け先氏名は全角20文字までです", "お届け先住所1行目は必須です",
           "お届け先住所1行目は全角20文字までです", "お届け先住所2行目は必須です",
           "お届け先住所2行目は全角20文字までです", "お届け先住所3行目は全角20文字までです"] := by
  intro e he
  unfold ClickpostShippingLabel.Validate ShopifyOrder.ToClickpostShippingLabel at he
  simp only at he
  by_cases h1 : s.ShippingZip = ""
  · rw [if_pos h1] at he
    injection he with h
    subst h
    decide
  rw [if_neg h1] at he
  by_cases h2 : s.ShippingName = ""
  · rw [if_pos h2] at he
    injection he with h
    subst h
    decide
  rw [if_neg h2] at he
  by_cases h3 : s.ShippingName.length > 20
  · rw [if_pos h3] at he
    injection he with h
    subst h
    decide
  rw [if_neg h3] at he
  by_cases h4 : s.ShippingProvince ++ s.ShippingCity = ""
  · rw [if_pos h4] at he
    injection he with h
    subst h
    decide
  rw [if_neg h4] at he
  by_cases h5 : (s.ShippingProvince ++ s.ShippingCity).length > 20
  · rw [if_pos h5] at he
    injection he with h
    subst h
    decide
  rw [if_neg h5] at he
  by_cases h6 : s.ShippingStreet ++ s.ShippingAddress1 = ""
  · rw [if_pos h6] at he
    injection he with h
    subst h
    decide
  rw [if_neg h6] at he
  by_cases h7 : (s.ShippingStreet ++ s.ShippingAddress1).length > 20
  · rw [if_pos h7] at he
    injection he with h
    subst h
    decide
  rw [if_neg h7] at he
  by_cases h8 : s.ShippingAddress2.length > 20
  · rw [if_pos h8] at he
    injection he with h
    subst h
    decide
  rw [if_neg h8, if_neg (by decide), if_neg (by decide)] at he
  exact Except.noConfusion he

/-- C9: every label produced by the transformer has address line 4 empty
(0 glyphs) and the fixed 6-glyph contents literal, so the validator's
"address line 4 too long" and "contents too long" branches are unreachable
on transformer output: a validation error on such a label can only be one
of the postal-code, name, or address-line-1/2/3 messages. -/
theorem transformed_label_unreachable_branches (s : ShopifyOrder) :
    s.ToClickpostShippingLabel.ShippingAddress4 = "" ∧
    s.ToClickpostShippingLabel.ShippingContents.length = 6 ∧
    s.ToClickpostShippingLabel.Validate ≠ .error "お届け先住所4行目は全角20文字までです" ∧
    s.ToClickpostShippingLabel.Validate ≠ .error "内容品は全角15文字までです" ∧
    (∀ e, s.ToClickpostShippingLabel.Validate = .error e →
      e ∈ ["お届け先郵便番号は必須です", "お届け先氏名は必須です",
           "お届け先氏名は全角20文字までです", "お届け先住所1行目は必須です",
           "お届け先住所1行目は全角20文字までです", "お届け先住所2行目は必須です",
           "お届け先住所2行目は全角20文字までです", "お届け先住所3行目は全角20文字までです"]) := by
  refine ⟨rfl, (by decide : ("サプリメント" : String).length = 6), ?_, ?_, validate_transformed_mem s⟩
  · intro hco
    exact absurd (validate_transformed_mem s _ hco) (by decide)
  · intro hco
    exact absurd (validate_transformed_mem s _ hco) (by decide)

theorem transformed_label_unreachable_branches_witness :
    "お届け先郵便番号は必須です"
      ∈ ["お届け先郵便番号は必須です", "お届け先氏名は必須です",
         "お届け先氏名は全角20文字までです", "お届け先住所1行目は必須です",
         "お届け先住所1行目は全角20文字までです", "お届け先住所2行目は必須です",
         "お届け先住所2行目は全角20文字までです", "お届け先住所3行目は全角20文字までです"] :=
  (transformed_label_unreachable_branches emptyOrder).2.2.2.2
    "お届け先郵便番号は必須です" rfl
